import Mathlib

/-!
# Baseline web-features checker: verification of the detection-and-reporting pipeline

A shallow embedding of the browser add-on's three components:

* the **Page Scanner** (content script `BaselineFeatureDetector`): the
  deduplicated detected-feature set (`addFeature`), the three detection passes
  generating feature additions from a document snapshot (`detectionCalls`,
  `analyzeDocument`), and the element-highlighting operations
  (`highlightFeatureUsage`);
* the **Coordinator** (background script): the badge computation (`updateBadge`);
* the **Lookup Panel** (popup script): pending-search consumption
  (`checkPendingSearch`), the startup event trace (`initTrace`), the search
  trigger (`handleSearchQuery`), and result rendering (`displayResults`,
  `createFeatureCard`).

JavaScript regular-expression tests over the concatenated style/script text are
embedded by an executable matcher (`reTest`) over an explicit pattern syntax
(`RE`); the patterns below transcribe the literal regexes of the source.
The pseudo-random element sampling of `analyzeComputedStyles` is made explicit:
the sequence of random draws is an input (`sample : Nat → Nat`), each draw `r`
selecting element `r % elements.length` (every index is a possible draw).
-/

namespace BaselineChecker

/-! ## Character classes (JavaScript regex semantics) -/

/-- JavaScript regex whitespace class (the set matched by the pattern class
written with a backslash and the letter s): tab, line feed, vertical tab, form
feed, carriage return, space, NBSP, ogham space mark, the U+2000..U+200A range,
line/paragraph separators, narrow NBSP, medium mathematical space, ideographic
space, and BOM. -/
def wsChar (c : Char) : Bool :=
  c = ' ' || c = Char.ofNat 9 || c = Char.ofNat 10 || c = Char.ofNat 11 ||
  c = Char.ofNat 12 || c = Char.ofNat 13 || c.toNat = 0xa0 || c.toNat = 0x1680 ||
  (0x2000 ≤ c.toNat && c.toNat ≤ 0x200a) || c.toNat = 0x2028 || c.toNat = 0x2029 ||
  c.toNat = 0x202f || c.toNat = 0x205f || c.toNat = 0x3000 || c.toNat = 0xfeff

/-- JavaScript regex word class: ASCII letters, digits and underscore. -/
def wordChar (c : Char) : Bool :=
  (97 ≤ c.toNat && c.toNat ≤ 122) || (65 ≤ c.toNat && c.toNat ≤ 90) ||
  (48 ≤ c.toNat && c.toNat ≤ 57) || c = '_'

/-- JavaScript regex dot (non-dotall): any character except line terminators. -/
def dotChar (c : Char) : Bool :=
  !(c.toNat = 10 || c.toNat = 13 || c.toNat = 0x2028 || c.toNat = 0x2029)

/-- The word class extended with the hyphen (character class of word char or
hyphen, as used in the custom-property patterns). -/
def wordDashChar (c : Char) : Bool := wordChar c || c = '-'

/-- Character class of word char, comma or whitespace (destructuring pattern). -/
def wordCommaWsChar (c : Char) : Bool := wordChar c || c = ',' || wsChar c

/-- First character of a JS identifier: ASCII letter, underscore or dollar. -/
def identStartChar (c : Char) : Bool :=
  (97 ≤ c.toNat && c.toNat ≤ 122) || (65 ≤ c.toNat && c.toNat ≤ 90) ||
  c = '_' || c = '$'

/-- The backtick character (U+0060). -/
def backtickChar : Char := Char.ofNat 96

/-- The opening curly brace character (U+007B). -/
def lbraceChar : Char := Char.ofNat 123

/-! ## A small regular-expression syntax and matcher

Only the combinators actually used by the source's regex literals are needed:
literal characters, single-character classes, concatenation, alternation, and
starred / plus-ed character classes. -/

inductive RE where
  | eps : RE
  | chr : Char → RE
  | cls : (Char → Bool) → RE
  | seq : RE → RE → RE
  | alt : RE → RE → RE
  | starCls : (Char → Bool) → RE
  | plusCls : (Char → Bool) → RE

/-- All suffixes of `s` obtained by consuming zero or more leading characters
satisfying `f` (in order of number of consumed characters). -/
def starSuffixes (f : Char → Bool) : List Char → List (List Char)
  | [] => [[]]
  | x :: xs => (x :: xs) :: (if f x then starSuffixes f xs else [])

/-- Suffixes of `s` obtained by consuming one or more leading `f`-characters. -/
def plusSuffixes (f : Char → Bool) : List Char → List (List Char)
  | [] => []
  | x :: xs => if f x then starSuffixes f xs else []

/-- All remainders after matching some prefix of the input against `r`. -/
def reMatch : RE → List Char → List (List Char)
  | .eps, s => [s]
  | .chr _, [] => []
  | .chr c, x :: xs => if x = c then [xs] else []
  | .cls _, [] => []
  | .cls f, x :: xs => if f x then [xs] else []
  | .seq a b, s => (reMatch a s).flatMap (fun rest => reMatch b rest)
  | .alt a b, s => reMatch a s ++ reMatch b s
  | .starCls f, s => starSuffixes f s
  | .plusCls f, s => plusSuffixes f s

/-- All suffixes of a character list (including the list itself and `[]`). -/
def sfx : List Char → List (List Char)
  | [] => [[]]
  | x :: xs => (x :: xs) :: sfx xs

/-- JavaScript `regex.test(s)`: does a match start at some position of `s`? -/
def reTest (r : RE) (s : String) : Bool :=
  (sfx s.data).any (fun t => !(reMatch r t).isEmpty)

/-- A literal string pattern. -/
def lit (s : String) : RE :=
  s.data.foldr (fun c r => RE.seq (RE.chr c) r) RE.eps

/-- Alternation of a list of patterns. -/
def alts : List RE → RE
  | [] => RE.cls (fun _ => false)
  | [r] => r
  | r :: rs => RE.alt r (alts rs)

/-- Concatenation of a list of patterns. -/
def cat : List RE → RE
  | [] => RE.eps
  | [r] => r
  | r :: rs => RE.seq r (cat rs)

/-- Zero or more whitespace characters. -/
def ws0 : RE := RE.starCls wsChar

/-- One or more whitespace characters. -/
def ws1 : RE := RE.plusCls wsChar

/-- `.*` : zero or more non-line-terminator characters. -/
def anyStar : RE := RE.starCls dotChar

/-! ## The detected-feature set (Scanner)

`content.js` stores detected features in a JS `Set` of records, but
`addFeature` performs explicit deduplication by `id`, so the container behaves
as an insertion-ordered list with unique ids.  `Array.from(set)` preserves
insertion order, so the embedding is a `List`. -/

structure DetectedFeature where
  id : String
  name : String
  type : String
  evidence : String
deriving DecidableEq, Repr

/-- `existing.evidence = evidence`: the source mutates the record returned by
`features.find(f => f.id === id)`, i.e. the first record with that id; all
other records are untouched. -/
def updateEvidenceFirst (features : List DetectedFeature) (id evidence : String) :
    List DetectedFeature :=
  match features with
  | [] => []
  | f :: fs =>
    if f.id = id then { f with evidence := evidence } :: fs
    else f :: updateEvidenceFirst fs id evidence

/-- `BaselineFeatureDetector.addFeature(id, name, type, evidence)`: if a record
with this `id` exists, only its evidence is replaced; otherwise a fresh record
is appended. -/
def addFeature (features : List DetectedFeature) (id name type evidence : String) :
    List DetectedFeature :=
  match features.find? (fun f => f.id == id) with
  | some _ => updateEvidenceFirst features id evidence
  | none => features ++ [{ id := id, name := name, type := type, evidence := evidence }]

/-- One call to `addFeature` with its four arguments. -/
structure FeatureCall where
  id : String
  name : String
  type : String
  evidence : String
deriving DecidableEq, Repr

/-- Perform one recorded `addFeature` call. -/
def callAdd (fs : List DetectedFeature) (c : FeatureCall) : List DetectedFeature :=
  addFeature fs c.id c.name c.type c.evidence

/-- Replay a sequence of `addFeature` calls on a fresh (empty) detected set. -/
def runCalls (cs : List FeatureCall) : List DetectedFeature :=
  cs.foldl callAdd []

/-- The first call of the sequence carrying the given id. -/
def firstCallWith (cs : List FeatureCall) (id : String) : Option FeatureCall :=
  cs.find? (fun c => c.id == id)

/-- The last call of the sequence carrying the given id. -/
def lastCallWith (cs : List FeatureCall) (id : String) : Option FeatureCall :=
  cs.reverse.find? (fun c => c.id == id)

/-- Declarative description, following the claim's words, of the entry the
detected set should hold for a given id after a call sequence: name and type
from the first call with that id, evidence from the last call with that id;
no entry when the id was never added. -/
def claimedEntry (cs : List FeatureCall) (id : String) : Option DetectedFeature :=
  match firstCallWith cs id, lastCallWith cs id with
  | some f, some l => some { id := id, name := f.name, type := f.type, evidence := l.evidence }
  | _, _ => none

/-! ## The detection patterns

Each definition transcribes one regex literal of `content.js`. -/

def cssGridRE : RE := alts
  [cat [lit "display:", ws0, lit "grid"], cat [lit "display:", ws0, lit "inline-grid"],
   lit "grid-template", lit "grid-area", lit "grid-column", lit "grid-row"]

def flexboxRE : RE := alts
  [cat [lit "display:", ws0, lit "flex"], cat [lit "display:", ws0, lit "inline-flex"],
   lit "flex-direction", lit "flex-wrap", lit "justify-content", lit "align-items"]

def containerQueriesRE : RE := alts
  [lit "@container", lit "container-type", lit "container-name"]

def subgridRE : RE := alts
  [cat [lit "grid-template", anyStar, lit "subgrid"], lit "subgrid"]

def cascadeLayersRE : RE := lit "@layer"

def aspectRatioRE : RE := cat [lit "aspect-ratio", ws0, lit ":"]

def gapRE : RE := alts
  [cat [lit "gap", ws0, lit ":"], cat [lit "column-gap", ws0, lit ":"],
   cat [lit "row-gap", ws0, lit ":"]]

def transformsRE : RE := alts
  [cat [lit "transform", ws0, lit ":"], lit "transform3d", lit "translateX",
   lit "translateY", lit "translateZ", lit "rotate", lit "scale", lit "skew"]

def animationsRE : RE := alts
  [lit "@keyframes", cat [lit "animation", ws0, lit ":"], lit "animation-name"]

def transitionsRE : RE := alts
  [cat [lit "transition", ws0, lit ":"], lit "transition-property", lit "transition-duration"]

def backdropFilterRE : RE := cat [lit "backdrop-filter", ws0, lit ":"]

def masksRE : RE := alts
  [cat [lit "mask", ws0, lit ":"], lit "mask-image", lit "mask-position"]

def clampRE : RE := cat [lit "clamp", ws0, lit "("]

def logicalPropsRE : RE := alts
  [lit "margin-inline", lit "padding-inline", lit "border-inline",
   lit "margin-block", lit "padding-block"]

def customPropDefRE : RE := cat [lit "--", RE.plusCls wordDashChar, ws0, lit ":"]

def customPropUseRE : RE := cat [lit "var(--", RE.plusCls wordDashChar, lit ")"]

def hasSelectorRE : RE := cat [lit ":has", ws0, lit "("]

def isSelectorRE : RE := cat [lit ":is", ws0, lit "("]

def whereSelectorRE : RE := cat [lit ":where", ws0, lit "("]

def nestingRE : RE := alts
  [cat [lit "&", ws0, RE.chr lbraceChar], cat [lit "&", ws0, lit ":"]]

def promiseAllSettledRE : RE := lit "Promise.allSettled"

def promiseAnyRE : RE := lit "Promise.any"

def promiseTryRE : RE := lit "Promise.try"

def optionalChainingRE : RE := cat [lit "?.", RE.cls identStartChar]

def nullishRE : RE := lit "??"

def asyncAwaitRE : RE := alts
  [cat [lit "async", ws1, lit "function"], cat [lit "await", RE.cls wsChar]]

def arrowRE : RE := alts
  [cat [lit "=>", ws0, RE.chr lbraceChar],
   cat [lit "=>", ws0, RE.cls (fun c => !(c = lbraceChar))]]

def templateLitRE : RE :=
  cat [RE.chr backtickChar, RE.starCls (fun c => !(c = backtickChar)), RE.chr backtickChar]

def destructuringRE : RE := alts
  [cat [RE.chr lbraceChar, ws0, RE.plusCls wordCommaWsChar, RE.chr (Char.ofNat 125), ws0, lit "="],
   cat [lit "[", ws0, RE.plusCls wordCommaWsChar, lit "]", ws0, lit "="]]

def spreadRE : RE := cat [lit "...", RE.cls (fun c => wordChar c || c = '$')]

def fetchRE : RE := cat [lit "fetch", ws0, lit "("]

def intersectionObserverRE : RE := lit "IntersectionObserver"

def resizeObserverRE : RE := lit "ResizeObserver"

def newWorkerRE : RE := cat [lit "new", ws1, lit "Worker"]

def serviceWorkerRE : RE := lit "serviceWorker"

def paymentRequestRE : RE := lit "PaymentRequest"

def navigatorShareRE : RE := lit "navigator.share"

def navigatorClipboardRE : RE := lit "navigator.clipboard"

def navigatorGeolocationRE : RE := lit "navigator.geolocation"

def dynamicImportRE : RE := cat [lit "import", ws0, lit "("]

/-! ## The document snapshot

The state of the page as far as the detection passes read it. -/

/-- The resolved (computed) style values the Scanner inspects per element. -/
structure ComputedStyle where
  display : String
  transform : String
  filter : String
deriving DecidableEq, Repr

structure PageElement where
  tagName : String
  style : ComputedStyle
deriving DecidableEq, Repr

/-- Existence guards on the execution environment: the source tests a global
(or method) for presence before pattern-matching the script text. -/
structure Env where
  promiseAllSettled : Bool
  promiseAny : Bool
  promiseTry : Bool
  fetchFn : Bool
  intersectionObserver : Bool
  resizeObserver : Bool
  worker : Bool
  serviceWorker : Bool
  paymentRequest : Bool
  share : Bool
  clipboard : Bool
  geolocation : Bool
deriving DecidableEq, Repr

/-- The document snapshot as the detection passes read it: the concatenated
same-origin stylesheet plus inline-style text (`getAllCSSText`), the
concatenated inline-script text (`getAllScriptText`), the element list with
computed styles, the DOM-query counts of the markup pass, and the environment
guards. -/
structure Doc where
  cssText : String
  scriptText : String
  elements : List PageElement
  moduleScriptCount : Nat
  customElementCount : Nat
  shadowRootPresent : Bool
  modernInputCount : Nat
  detailsCount : Nat
  pictureCount : Nat
  dialogCount : Nat
  env : Env
deriving DecidableEq, Repr

/-- Guarded `addFeature` call: the source pattern
`if (test) this.addFeature(id, name, type, evidence)`. -/
def checkCall (b : Bool) (id name type evidence : String) : List FeatureCall :=
  if b then [{ id := id, name := name, type := type, evidence := evidence }] else []

/-- `analyzeStyleSheets`: the 14 pattern tests over the CSS text buffer. -/
def analyzeStyleSheetsCalls (cssText : String) : List FeatureCall :=
  checkCall (reTest cssGridRE cssText) "css-grid" "CSS Grid Layout" "css" "Found in stylesheets" ++
  checkCall (reTest flexboxRE cssText) "flexbox" "CSS Flexible Box Layout" "css" "Found in stylesheets" ++
  checkCall (reTest containerQueriesRE cssText) "css-container-queries" "CSS Container Queries" "css" "Found in stylesheets" ++
  checkCall (reTest subgridRE cssText) "css-subgrid" "CSS Subgrid" "css" "Found in stylesheets" ++
  checkCall (reTest cascadeLayersRE cssText) "css-cascade-layers" "CSS Cascade Layers" "css" "Found in stylesheets" ++
  checkCall (reTest aspectRatioRE cssText) "css-aspect-ratio" "CSS aspect-ratio" "css" "Found in stylesheets" ++
  checkCall (reTest gapRE cssText) "flexbox-gap" "CSS Gap" "css" "Found gap property" ++
  checkCall (reTest transformsRE cssText) "css-transforms" "CSS Transforms" "css" "Found in stylesheets" ++
  checkCall (reTest animationsRE cssText) "css-animations" "CSS Animations" "css" "Found animations" ++
  checkCall (reTest transitionsRE cssText) "css-transitions" "CSS Transitions" "css" "Found transitions" ++
  checkCall (reTest backdropFilterRE cssText) "css-backdrop-filter" "CSS backdrop-filter" "css" "Found in stylesheets" ++
  checkCall (reTest masksRE cssText) "css-masks" "CSS Masks" "css" "Found in stylesheets" ++
  checkCall (reTest clampRE cssText) "css-math-functions" "CSS Math Functions" "css" "Found clamp() function" ++
  checkCall (reTest logicalPropsRE cssText) "css-logical-props" "CSS Logical Properties" "css" "Found logical properties"

/-- The four computed-style checks the sampling loop runs on one element. -/
def computedStyleCalls (el : PageElement) : List FeatureCall :=
  checkCall (el.style.display == "grid" || el.style.display == "inline-grid")
    "css-grid" "CSS Grid Layout" "css" ("Active on " ++ el.tagName.toLower) ++
  checkCall (el.style.display == "flex" || el.style.display == "inline-flex")
    "flexbox" "CSS Flexible Box Layout" "css" ("Active on " ++ el.tagName.toLower) ++
  checkCall (!(el.style.transform == "") && !(el.style.transform == "none"))
    "css-transforms" "CSS Transforms" "css" ("Active on " ++ el.tagName.toLower) ++
  checkCall (!(el.style.filter == "") && !(el.style.filter == "none"))
    "css-filters" "CSS Filters" "css" ("Active on " ++ el.tagName.toLower)

/-- `analyzeComputedStyles`: `min(elements.length, 50)` iterations, each
inspecting the element at a pseudo-random index.  `sample i` is the `i`-th
random draw; `Math.floor(Math.random() * elements.length)` is an arbitrary
index below the length, embedded as `sample i % elements.length`. -/
def analyzeComputedStylesCalls (els : List PageElement) (sample : Nat → Nat) :
    List FeatureCall :=
  (List.range (min els.length 50)).flatMap (fun i =>
    match els.get? (sample i % els.length) with
    | some el => computedStyleCalls el
    | none => [])

/-- `detectCSSCustomProperties`: definition-site and use-site tests. -/
def detectCSSCustomPropertiesCalls (cssText : String) : List FeatureCall :=
  checkCall (reTest customPropDefRE cssText) "css-custom-properties" "CSS Custom Properties" "css" "Found custom property definitions" ++
  checkCall (reTest customPropUseRE cssText) "css-custom-properties" "CSS Custom Properties" "css" "Found var() usage"

/-- `detectModernCSSFeatures`. -/
def detectModernCSSFeaturesCalls (cssText : String) : List FeatureCall :=
  checkCall (reTest hasSelectorRE cssText) "css-has" "CSS :has() selector" "css" "Found :has() selector" ++
  checkCall (reTest isSelectorRE cssText) "css-is" "CSS :is() selector" "css" "Found :is() selector" ++
  checkCall (reTest whereSelectorRE cssText) "css-where" "CSS :where() selector" "css" "Found :where() selector" ++
  checkCall (reTest nestingRE cssText) "css-nesting" "CSS Nesting" "css" "Found nesting syntax"

/-- `detectPromiseFeatures` (each test guarded by method existence). -/
def detectPromiseFeaturesCalls (env : Env) (scripts : String) : List FeatureCall :=
  checkCall (env.promiseAllSettled && reTest promiseAllSettledRE scripts) "promise-allsettled" "Promise.allSettled()" "javascript" "Found in scripts" ++
  checkCall (env.promiseAny && reTest promiseAnyRE scripts) "promise-any" "Promise.any()" "javascript" "Found in scripts" ++
  checkCall (env.promiseTry && reTest promiseTryRE scripts) "promise-try" "Promise.try()" "javascript" "Found in scripts"

/-- `detectModernSyntax`. -/
def detectModernSyntaxCalls (scripts : String) : List FeatureCall :=
  checkCall (reTest optionalChainingRE scripts) "optional-chaining" "Optional Chaining" "javascript" "Found ?. syntax" ++
  checkCall (reTest nullishRE scripts) "nullish-coalescing" "Nullish Coalescing" "javascript" "Found ?? syntax" ++
  checkCall (reTest asyncAwaitRE scripts) "async-await" "Async/Await" "javascript" "Found async/await syntax" ++
  checkCall (reTest arrowRE scripts) "arrow-functions" "Arrow Functions" "javascript" "Found => syntax" ++
  checkCall (reTest templateLitRE scripts) "template-literals" "Template Literals" "javascript" "Found backtick syntax" ++
  checkCall (reTest destructuringRE scripts) "destructuring" "Destructuring Assignment" "javascript" "Found destructuring syntax" ++
  checkCall (reTest spreadRE scripts) "spread-operator" "Spread Operator" "javascript" "Found ... syntax"

/-- `detectWebAPIs` (each test guarded by an existence check on a global). -/
def detectWebAPIsCalls (env : Env) (scripts : String) : List FeatureCall :=
  checkCall (env.fetchFn && reTest fetchRE scripts) "fetch" "Fetch API" "web-api" "Found fetch() usage" ++
  checkCall (env.intersectionObserver && reTest intersectionObserverRE scripts) "intersection-observer" "Intersection Observer" "web-api" "Found usage" ++
  checkCall (env.resizeObserver && reTest resizeObserverRE scripts) "resize-observer" "Resize Observer" "web-api" "Found usage" ++
  checkCall (env.worker && reTest newWorkerRE scripts) "web-workers" "Web Workers" "web-api" "Found Worker usage" ++
  checkCall (env.serviceWorker && reTest serviceWorkerRE scripts) "service-workers" "Service Workers" "web-api" "Found serviceWorker usage" ++
  checkCall (env.paymentRequest && reTest paymentRequestRE scripts) "payment-request" "Payment Request API" "web-api" "Found usage" ++
  checkCall (env.share && reTest navigatorShareRE scripts) "web-share" "Web Share API" "web-api" "Found navigator.share usage" ++
  checkCall (env.clipboard && reTest navigatorClipboardRE scripts) "clipboard-api" "Clipboard API" "web-api" "Found clipboard usage" ++
  checkCall (env.geolocation && reTest navigatorGeolocationRE scripts) "geolocation" "Geolocation API" "web-api" "Found geolocation usage"

/-- `detectESModules`. -/
def detectESModulesCalls (moduleScriptCount : Nat) (scripts : String) : List FeatureCall :=
  checkCall (moduleScriptCount > 0) "es-modules" "ES Modules" "javascript"
    ("Found " ++ toString moduleScriptCount ++ " module script(s)") ++
  checkCall (reTest dynamicImportRE scripts) "dynamic-import" "Dynamic Import" "javascript" "Found import() usage"

/-- `detectHTMLFeatures`. -/
def detectHTMLFeaturesCalls (d : Doc) : List FeatureCall :=
  checkCall (d.customElementCount > 0) "custom-elements" "Custom Elements" "html" "Found registered custom elements" ++
  checkCall d.shadowRootPresent "shadow-dom" "Shadow DOM" "html" "Found shadow DOM usage" ++
  checkCall (d.modernInputCount > 0) "html5-forms" "HTML5 Form Controls" "html"
    ("Found " ++ toString d.modernInputCount ++ " modern input types") ++
  checkCall (d.detailsCount > 0) "details-summary" "Details/Summary Elements" "html"
    ("Found " ++ toString d.detailsCount ++ " details elements") ++
  checkCall (d.pictureCount > 0) "picture-element" "Picture Element" "html"
    ("Found " ++ toString d.pictureCount ++ " picture elements") ++
  checkCall (d.dialogCount > 0) "dialog-element" "Dialog Element" "html"
    ("Found " ++ toString d.dialogCount ++ " dialog elements")

/-- The sequence of `addFeature` calls one full `analyzeDocument` pass issues,
in source order: CSS pass (stylesheets, computed-style sampling, custom
properties, modern selectors), JavaScript pass, markup pass. -/
def detectionCalls (d : Doc) (sample : Nat → Nat) : List FeatureCall :=
  analyzeStyleSheetsCalls d.cssText ++
  analyzeComputedStylesCalls d.elements sample ++
  detectCSSCustomPropertiesCalls d.cssText ++
  detectModernCSSFeaturesCalls d.cssText ++
  detectPromiseFeaturesCalls d.env d.scriptText ++
  detectModernSyntaxCalls d.scriptText ++
  detectWebAPIsCalls d.env d.scriptText ++
  detectESModulesCalls d.moduleScriptCount d.scriptText ++
  detectHTMLFeaturesCalls d

/-- `analyzeDocument`: clear the detected set, run all passes.  The result is
the detected-feature list after the pass (the subsequent report to the
Coordinator sends exactly this list). -/
def analyzeDocument (d : Doc) (sample : Nat → Nat) : List DetectedFeature :=
  runCalls (detectionCalls d sample)

/-- The ids a run can only acquire through the computed-style sampling pass is
a subset of these four; these are the only ids whose detection depends on the
random draws. -/
def sampledIds : List String := ["css-grid", "flexbox", "css-transforms", "css-filters"]

/-! ## Highlighting (Scanner)

Element state touched by `highlightFeatureUsage` / `highlightSpecificFeature`:
the `baseline-highlight` class and the `data-baseline-feature` attribute,
plus the computed style values the rules inspect. -/

structure HElem where
  display : String
  transform : String
  highlighted : Bool
  baselineAttr : Option String
deriving DecidableEq, Repr

/-- Page state for highlighting: the elements and whether the shared
`baseline-highlight-styles` style element has been injected. -/
structure HDoc where
  els : List HElem
  styleInjected : Bool
deriving DecidableEq, Repr

/-- The clearing step on one element: an element carrying the
`baseline-highlight` class loses the class and the `data-baseline-feature`
attribute; other elements are untouched. -/
def clearOne (e : HElem) : HElem :=
  if e.highlighted then { e with highlighted := false, baselineAttr := none } else e

/-- The clearing loop over `document.querySelectorAll('.baseline-highlight')`. -/
def clearHighlights (els : List HElem) : List HElem :=
  els.map clearOne

/-- The `css-grid` branch body: tag an element whose computed display is
`grid` or `inline-grid`. -/
def applyGridHighlight (e : HElem) : HElem :=
  if e.display == "grid" || e.display == "inline-grid" then
    { e with highlighted := true, baselineAttr := some "CSS Grid" }
  else e

/-- The `flexbox` branch body. -/
def applyFlexHighlight (e : HElem) : HElem :=
  if e.display == "flex" || e.display == "inline-flex" then
    { e with highlighted := true, baselineAttr := some "Flexbox" }
  else e

/-- The `css-transforms` branch body (`style.transform && style.transform !==
'none'`). -/
def applyTransformHighlight (e : HElem) : HElem :=
  if !(e.transform == "") && !(e.transform == "none") then
    { e with highlighted := true, baselineAttr := some "CSS Transform" }
  else e

/-- `highlightSpecificFeature`: the switch on the feature id.  Recognized ids
tag every element matching the feature's computed-style rule; the default
branch only logs. -/
def highlightSpecificFeature (featureId : String) (els : List HElem) : List HElem :=
  if featureId = "css-grid" then els.map applyGridHighlight
  else if featureId = "flexbox" then els.map applyFlexHighlight
  else if featureId = "css-transforms" then els.map applyTransformHighlight
  else els

/-- `highlightFeatureUsage`: remove all existing highlights, ensure the shared
style element exists, then dispatch on the feature id. -/
def highlightFeatureUsage (featureId : String) (d : HDoc) : HDoc :=
  let cleared := clearHighlights d.els
  { els := highlightSpecificFeature featureId cleared, styleInjected := true }

/-- The computed-style rule a recognized feature id selects elements by
(used to state which elements end up highlighted). -/
def highlightRule (featureId : String) (e : HElem) : Bool :=
  if featureId = "css-grid" then e.display == "grid" || e.display == "inline-grid"
  else if featureId = "flexbox" then e.display == "flex" || e.display == "inline-flex"
  else if featureId = "css-transforms" then !(e.transform == "") && !(e.transform == "none")
  else false

/-! ## Coordinator (background script): badge computation -/

/-- The slice of a reported feature record the badge computation reads:
`f.baseline?.status`. -/
structure BadgeBaseline where
  status : Option String
deriving DecidableEq, Repr

structure BadgeFeature where
  baseline : Option BadgeBaseline
deriving DecidableEq, Repr

/-- `f.baseline?.status === 'limited'` (strict equality against a possibly
absent optional chain). -/
def isLimited (f : BadgeFeature) : Bool :=
  match f.baseline with
  | some b => match b.status with
    | some s => s == "limited"
    | none => false
  | none => false

/-- The effect `updateBadge` has on the visible badge: either the text is set
to the empty string (clearing it), or text and background color are set. -/
inductive BadgeAction where
  | clear
  | set (text : String) (color : String)
deriving DecidableEq, Repr

/-- JavaScript truthiness of the optional numeric `tabId` (`!tabId`):
absent or `0` is falsy. -/
def tabIdTruthy : Option Nat → Bool
  | none => false
  | some n => !(n == 0)

/-- `updateBadge(tabId, features)` from `background.js`.  A missing/falsy tab
id or an empty feature list clears the badge; otherwise a positive count of
limited-support features is shown in red, uncapped; otherwise the total count,
capped at 99, is shown in green. -/
def updateBadge (tabId : Option Nat) (features : List BadgeFeature) : BadgeAction :=
  if !tabIdTruthy tabId || features.length == 0 then .clear
  else
    let limitedFeatures := features.filter isLimited
    if limitedFeatures.length > 0 then
      .set (toString limitedFeatures.length) "#dc3545"
    else
      .set (toString (min features.length 99)) "#28a745"

/-- The length of the text an action writes onto the badge (clearing writes
the empty string). -/
def badgeTextLength : BadgeAction → Nat
  | .clear => 0
  | .set t _ => t.length

/-! ## Lookup Panel (popup script) -/

/-- JavaScript `String.prototype.trim`: strip leading and trailing whitespace
(including line terminators). -/
def jsTrim (s : String) : String :=
  ⟨((s.data.dropWhile wsChar).reverse.dropWhile wsChar).reverse⟩

/-- `handleSearch`: trim the search field; a truthy (nonempty) query builds the
name-or-id catalog query and triggers a user search, otherwise nothing
happens. -/
def handleSearchQuery (fieldValue : String) : Option String :=
  let query := jsTrim fieldValue
  if query = "" then none
  else some ("name:" ++ query ++ " OR id:" ++ query)

/-- Observable popup actions, in the order the panel performs them. -/
inductive PopupEvent where
  | storageGet (key : String)
  | tabQuery
  | fieldSet (value : String)
  | searchIssued (query : String) (isUserSearch : Bool)
  | storageRemove (key : String)
deriving DecidableEq, Repr

/-- The events `handleSearch` produces for a given field content. -/
def handleSearchEvents (fieldValue : String) : List PopupEvent :=
  match handleSearchQuery fieldValue with
  | some q => [.searchIssued q true]
  | none => []

/-- The session-storage slice the popup touches. -/
structure SessionStore where
  pendingSearch : Option String
deriving DecidableEq, Repr

/-- `checkPendingSearch`: read `pendingSearch`; when the value is truthy
(present and nonempty), populate the search field, run `handleSearch`, and
remove the key; otherwise do nothing.  Returns the emitted events and the
storage state afterwards. -/
def checkPendingSearch (st : SessionStore) : List PopupEvent × SessionStore :=
  match st.pendingSearch with
  | some v =>
    if v = "" then ([], st)
    else ([PopupEvent.fieldSet v] ++ handleSearchEvents v ++
            [PopupEvent.storageRemove "pendingSearch"],
          { pendingSearch := none })
  | none => ([], st)

/-- The event trace of one `BaselinePopup.init`, given the pending-search
value in session storage.  `init` is synchronous: `checkPendingSearch()` runs
up to its first `await` (issuing the storage read) and suspends,
`loadDetectedFeatures()` likewise issues its tab query and suspends, and the
default search is issued — all before any awaited promise resolves, because a
JavaScript async function's continuation cannot preempt the running
synchronous body.  The continuation of the storage read (field population,
pending search, key removal) therefore runs strictly after the synchronous
section. -/
def initTrace (pending : Option String) : List PopupEvent :=
  [PopupEvent.storageGet "pendingSearch", PopupEvent.tabQuery,
   PopupEvent.searchIssued "baseline_status:newly" false] ++
  (checkPendingSearch { pendingSearch := pending }).1

/-- Is this event the (non-user-initiated) default search? -/
def isDefaultSearchEvent : PopupEvent → Bool
  | .searchIssued _ u => !u
  | _ => false

/-- Is this event a user-initiated search (as the pending search is)? -/
def isUserSearchEvent : PopupEvent → Bool
  | .searchIssued _ u => u
  | _ => false

/-- Is this event the pending-search storage read? -/
def isPendingReadEvent : PopupEvent → Bool
  | .storageGet k => k == "pendingSearch"
  | _ => false

/-- Position of the first event satisfying `p` in a trace. -/
def findPos (p : PopupEvent → Bool) : List PopupEvent → Option Nat
  | [] => none
  | e :: es => if p e then some 0 else (findPos p es).map (· + 1)

/-! ### Result rendering -/

/-- A catalog feature as the popup reads it (`result.data[i]`). -/
structure CatalogBaseline where
  status : Option String
  low_date : Option String
  high_date : Option String
deriving DecidableEq, Repr

structure CatalogFeature where
  name : Option String
  feature_id : Option String
  baseline : Option CatalogBaseline
deriving DecidableEq, Repr

/-- `feature.baseline?.status || 'limited'`: absent baseline, absent status,
or an empty (falsy) status string all default to `limited`. -/
def cardStatus (f : CatalogFeature) : String :=
  match f.baseline with
  | none => "limited"
  | some b =>
    match b.status with
    | none => "limited"
    | some s => if s = "" then "limited" else s

/-- The `statusLabels` lookup table (an absent key yields no label). -/
def statusLabels (s : String) : Option String :=
  if s = "widely" then some "Widely Available"
  else if s = "newly" then some "Newly Available"
  else if s = "limited" then some "Limited Support"
  else none

/-- The `descriptions` lookup table. -/
def descriptions (s : String) : Option String :=
  if s = "widely" then some "Safe to use across all modern browsers"
  else if s = "newly" then some "Available in latest browsers, consider polyfills"
  else if s = "limited" then some "Limited browser support - use with caution"
  else none

/-- The fields of one rendered result card relevant to the claims: the
displayed name, id, support-status badge label and tier description. -/
structure Card where
  name : String
  featureId : String
  statusLabel : Option String
  description : Option String
deriving DecidableEq, Repr

/-- `createFeatureCard` (the card's status badge, description and header
fields; `feature.name || 'Unknown Feature'` and
`feature.feature_id || 'unknown'` are truthiness defaults). -/
def createFeatureCard (f : CatalogFeature) : Card :=
  { name := match f.name with
      | some n => if n = "" then "Unknown Feature" else n
      | none => "Unknown Feature"
  , featureId := match f.feature_id with
      | some i => if i = "" then "unknown" else i
      | none => "unknown"
  , statusLabel := statusLabels (cardStatus f)
  , description := descriptions (cardStatus f) }

/-- What `displayResults` leaves visible: the empty-state view, or the card
list plus an optional more-results footer. -/
inductive RenderOutput where
  | noResultsView
  | resultsView (cards : List Card) (footer : Option String)
deriving DecidableEq, Repr

/-- `displayResults(features, _)`: an empty result list shows the empty state;
otherwise the first 8 features become cards, and a footer
`Showing N of M results` is appended exactly when more than 8 results exist. -/
def displayResults (features : List CatalogFeature) : RenderOutput :=
  if features.length == 0 then .noResultsView
  else
    let limitedFeatures := features.take 8
    .resultsView (limitedFeatures.map createFeatureCard)
      (if features.length > 8 then
        some ("Showing " ++ toString limitedFeatures.length ++ " of " ++
              toString features.length ++ " results")
       else none)

/-- Number of cards an output renders. -/
def renderedCardCount : RenderOutput → Nat
  | .noResultsView => 0
  | .resultsView cards _ => cards.length

/-- The footer an output renders, if any. -/
def renderedFooter : RenderOutput → Option String
  | .noResultsView => none
  | .resultsView _ f => f

/-- The visibility flags of the three mutually exclusive popup sections. -/
structure PanelView where
  loadingVisible : Bool
  resultsVisible : Bool
  noResultsVisible : Bool
deriving DecidableEq, Repr

/-- `showLoading` (run at the start of every `searchFeatures` call). -/
def showLoading (_ : PanelView) : PanelView :=
  { loadingVisible := true, resultsVisible := false, noResultsVisible := false }

/-- `handleSearch` acting on the view state: a truthy trimmed query starts a
search (entering the loading state and issuing the catalog request); an empty
trimmed query does nothing. -/
def handleSearchState (fieldValue : String) (view : PanelView) :
    PanelView × Option String :=
  match handleSearchQuery fieldValue with
  | some q => (showLoading view, some q)
  | none => (view, none)

/-! ## Concrete inputs used by witnesses and counterexamples -/

/-- A reported feature flagged as having limited support. -/
def limFeature : BadgeFeature := { baseline := some { status := some "limited" } }

/-- A reported feature flagged as widely available. -/
def widelyFeature : BadgeFeature := { baseline := some { status := some "widely" } }

/-- A page with no styles/scripts/markup features, holding two elements of
which only the first has an active CSS filter.  Only the random sampling pass
can detect anything here. -/
def filterDoc : Doc :=
  { cssText := "", scriptText := "",
    elements :=
      [{ tagName := "div", style := { display := "block", transform := "none", filter := "blur(5px)" } },
       { tagName := "p", style := { display := "block", transform := "none", filter := "none" } }],
    moduleScriptCount := 0, customElementCount := 0, shadowRootPresent := false,
    modernInputCount := 0, detailsCount := 0, pictureCount := 0, dialogCount := 0,
    env := { promiseAllSettled := false, promiseAny := false, promiseTry := false,
             fetchFn := false, intersectionObserver := false, resizeObserver := false,
             worker := false, serviceWorker := false, paymentRequest := false,
             share := false, clipboard := false, geolocation := false } }

/-- A sequence of random draws that always selects the first element. -/
def drawFirst : Nat → Nat := fun _ => 0

/-- A sequence of random draws that always selects the second element. -/
def drawSecond : Nat → Nat := fun _ => 1

/-- A page whose single element currently carries a highlight marker. -/
def markedDoc : HDoc :=
  { els := [{ display := "block", transform := "none", highlighted := true,
              baselineAttr := some "CSS Grid" }],
    styleInjected := true }

/-- A page with one grid element and one previously marked non-grid element. -/
def gridDoc : HDoc :=
  { els := [{ display := "grid", transform := "none", highlighted := false, baselineAttr := none },
            { display := "block", transform := "none", highlighted := true,
              baselineAttr := some "Flexbox" }],
    styleInjected := false }

/-- A catalog feature carrying no `baseline` field at all. -/
def bareCatalogFeature : CatalogFeature :=
  { name := some "Some Feature", feature_id := some "some-feature", baseline := none }

/-- A widely-available catalog feature. -/
def widelyCatalogFeature : CatalogFeature :=
  { name := some "CSS Grid", feature_id := some "grid",
    baseline := some { status := some "widely", low_date := none, high_date := none } }

/-! ## Theorems -/

/-- Decimal rendering of a natural number below 100 takes at most 2 characters. -/
theorem natRepr_lt_100_len : ∀ n < 100, (Nat.repr n).length ≤ 2 := by decide

/-- C2: For every feature list given to the Coordinator's badge update (with a
valid tab): an empty list clears the badge (text set to the empty string);
else, if at least one feature has baseline status `limited`, the badge text is
the decimal count of limited-status features and the color is red (`#dc3545`);
otherwise the badge text is the total feature count capped at 99 and the color
is green (`#28a745`). -/
theorem coordinator_badge_rule (tabId : Option Nat) (features : List BadgeFeature)
    (htab : tabIdTruthy tabId = true) :
    (features = [] → updateBadge tabId features = BadgeAction.clear) ∧
    ((∃ f ∈ features, isLimited f = true) →
       updateBadge tabId features =
         BadgeAction.set (toString (features.filter isLimited).length) "#dc3545") ∧
    (features ≠ [] → (∀ f ∈ features, isLimited f = false) →
       updateBadge tabId features =
         BadgeAction.set (toString (min features.length 99)) "#28a745") := by
  refine ⟨?_, ?_, ?_⟩
  · rintro rfl
    simp [updateBadge]
  · rintro ⟨f, hf, hlim⟩
    have hne : features.length ≠ 0 := by
      intro h
      rw [List.length_eq_zero] at h
      subst h
      exact List.not_mem_nil f hf
    have hpos : 0 < (features.filter isLimited).length := by
      apply List.length_pos.mpr
      intro h
      have hmem := List.mem_filter.mpr ⟨hf, hlim⟩
      rw [h] at hmem
      exact List.not_mem_nil f hmem
    simp [updateBadge, htab, hne, hpos]
  · intro hne hall
    have hlen : features.length ≠ 0 := fun h => hne (List.length_eq_zero.mp h)
    have hfil : features.filter isLimited = [] := by
      apply List.filter_eq_nil_iff.mpr
      intro a ha
      simp [hall a ha]
    simp [updateBadge, htab, hlen, hfil]

/-- Witness for C2 at a concrete input: one limited plus one widely feature. -/
theorem coordinator_badge_rule_witness :
    updateBadge (some 1) [limFeature, widelyFeature] =
      BadgeAction.set (toString (([limFeature, widelyFeature].filter isLimited).length)) "#dc3545" ∧
    toString (([limFeature, widelyFeature].filter isLimited).length) = "1" :=
  ⟨(coordinator_badge_rule (some 1) [limFeature, widelyFeature] (by decide)).2.1
      ⟨limFeature, by decide, by decide⟩,
   by decide⟩

/-- C9 counterexample: with 100 limited-support features the badge text is
`"100"` — three characters, so the text is not always at most 2 characters. -/
theorem badge_text_three_chars :
    updateBadge (some 1) (List.replicate 100 limFeature) = BadgeAction.set "100" "#dc3545" ∧
    badgeTextLength (updateBadge (some 1) (List.replicate 100 limFeature)) = 3 := by
  decide

/-- C9 (amended): whenever the list holds at most 99 limited-support features,
the badge text set by the Coordinator is at most 2 characters long (the
limited-count path is uncapped in the code, so the bound needs this
hypothesis; the capped total-count path always satisfies it). -/
theorem badge_text_short (tabId : Option Nat) (features : List BadgeFeature)
    (hlim : (features.filter isLimited).length ≤ 99) :
    badgeTextLength (updateBadge tabId features) ≤ 2 := by
  unfold updateBadge
  by_cases h0 : (!tabIdTruthy tabId || features.length == 0) = true
  · simp [h0, badgeTextLength]
  · simp only [h0, if_false, Bool.not_eq_true] at *
    by_cases hpos : (features.filter isLimited).length > 0
    · simp only [hpos, if_true, badgeTextLength]
      exact natRepr_lt_100_len _ (by omega)
    · simp only [hpos, if_false, badgeTextLength]
      exact natRepr_lt_100_len _ (by omega)

/-- Witness for C9 (amended) at a concrete input. -/
theorem badge_text_short_witness :
    badgeTextLength (updateBadge (some 1) [limFeature, widelyFeature]) ≤ 2 :=
  badge_text_short (some 1) [limFeature, widelyFeature] (by decide)

/-- C10: a search-field content that is empty or all whitespace triggers no
catalog request and leaves the view state (loading / results / empty-state
visibility) unchanged. -/
theorem handleSearch_blank_noop (fieldValue : String) (view : PanelView)
    (h : ∀ c ∈ fieldValue.data, wsChar c = true) :
    handleSearchState fieldValue view = (view, none) ∧
    handleSearchEvents fieldValue = [] := by
  have ht : jsTrim fieldValue = "" := by
    unfold jsTrim
    have h1 : fieldValue.data.dropWhile wsChar = [] := List.dropWhile_eq_nil_iff.mpr h
    rw [h1]
    rfl
  have hq : handleSearchQuery fieldValue = none := by
    simp [handleSearchQuery, ht]
  exact ⟨by simp [handleSearchState, hq], by simp [handleSearchEvents, hq]⟩

/-- Witness for C10 at a concrete whitespace-only field content. -/
theorem handleSearch_blank_noop_witness :
    handleSearchState "   " { loadingVisible := false, resultsVisible := true,
                              noResultsVisible := false } =
      ({ loadingVisible := false, resultsVisible := true, noResultsVisible := false }, none) :=
  (handleSearch_blank_noop "   " _ (by decide)).1

/-- C8: a catalog feature whose `baseline` field is absent, or whose
`baseline.status` is missing, renders with the `Limited Support` status badge
and the default description of the limited tier. -/
theorem card_defaults_to_limited (f : CatalogFeature)
    (h : f.baseline = none ∨ ∃ b, f.baseline = some b ∧ b.status = none) :
    (createFeatureCard f).statusLabel = some "Limited Support" ∧
    (createFeatureCard f).description = some "Limited browser support - use with caution" := by
  have hs : cardStatus f = "limited" := by
    rcases h with h | ⟨b, hb, hst⟩
    · simp [cardStatus, h]
    · simp [cardStatus, hb, hst]
  refine ⟨?_, ?_⟩
  · show statusLabels (cardStatus f) = some "Limited Support"
    rw [hs]
    rfl
  · show descriptions (cardStatus f) = some "Limited browser support - use with caution"
    rw [hs]
    rfl

/-- Witness for C8 at a concrete baseline-less catalog feature. -/
theorem card_defaults_to_limited_witness :
    (createFeatureCard bareCatalogFeature).statusLabel = some "Limited Support" ∧
    (createFeatureCard bareCatalogFeature).description =
      some "Limited browser support - use with caution" :=
  card_defaults_to_limited bareCatalogFeature (Or.inl rfl)

/-- C7: a search-result list of length `M` renders the empty-state view when
`M = 0`; exactly 8 cards plus a `Showing 8 of M results` footer when `M > 8`;
and exactly `M` cards with no footer when `0 < M ≤ 8`. -/
theorem displayResults_spec (features : List CatalogFeature) :
    (features.length = 0 → displayResults features = RenderOutput.noResultsView) ∧
    (8 < features.length →
       renderedCardCount (displayResults features) = 8 ∧
       renderedFooter (displayResults features) =
         some ("Showing 8 of " ++ toString features.length ++ " results")) ∧
    (0 < features.length → features.length ≤ 8 →
       renderedCardCount (displayResults features) = features.length ∧
       renderedFooter (displayResults features) = none) := by
  refine ⟨?_, ?_, ?_⟩
  · intro h0
    simp [displayResults, h0]
  · intro h8
    have hne : (features.length == 0) = false := beq_eq_false_iff_ne.mpr (by omega)
    have htake : (features.take 8).length = 8 := by
      rw [List.length_take]
      omega
    constructor
    · simp only [displayResults, hne, Bool.false_eq_true, if_false, renderedCardCount,
        List.length_map, htake]
    · simp only [displayResults, hne, Bool.false_eq_true, if_false, renderedFooter]
      rw [if_pos h8, htake]
      rfl
  · intro hpos hle
    have hne : (features.length == 0) = false := beq_eq_false_iff_ne.mpr (by omega)
    have hng : ¬ (features.length > 8) := by omega
    have htake : (features.take 8).length = features.length := by
      rw [List.length_take]
      omega
    constructor
    · simp only [displayResults, hne, Bool.false_eq_true, if_false, renderedCardCount,
        List.length_map, htake]
    · simp only [displayResults, hne, Bool.false_eq_true, if_false, renderedFooter]
      rw [if_neg hng]

/-- Witness for C7 at `M = 12`: 8 cards and the footer `Showing 8 of 12
results`. -/
theorem displayResults_spec_witness :
    (renderedCardCount (displayResults (List.replicate 12 widelyCatalogFeature)) = 8 ∧
     renderedFooter (displayResults (List.replicate 12 widelyCatalogFeature)) =
       some ("Showing 8 of " ++ toString (List.replicate 12 widelyCatalogFeature).length ++
             " results")) ∧
    ("Showing 8 of " ++ toString (List.replicate 12 widelyCatalogFeature).length ++ " results") =
      "Showing 8 of 12 results" :=
  ⟨(displayResults_spec _).2.1 (by decide), by decide⟩

/-- C4 counterexample: on a page with one previously marked element, a
highlight request for an unrecognized feature id is not a no-op on element
state — the prior marker is removed. -/
theorem highlight_unknown_changes_state :
    (highlightFeatureUsage "unknown-feature" markedDoc).els ≠ markedDoc.els := by decide

/-- C4 (amended): every highlight request first removes all previously applied
markers.  For a recognized id (`css-grid`, `flexbox`, `css-transforms`) the
resulting marker on each element position reflects exactly the feature's
computed-style rule on the original element (no stale marker survives); for an
unrecognized id the result is exactly the cleared element list — no new marker
is applied, so no element remains marked.  In both cases the shared style
element is (re)ensured. -/
theorem highlightFeatureUsage_clears_then_applies (featureId : String) (d : HDoc) :
    ((featureId = "css-grid" ∨ featureId = "flexbox" ∨ featureId = "css-transforms") →
       ∀ i : Nat, ((highlightFeatureUsage featureId d).els[i]?).map HElem.highlighted =
             (d.els[i]?).map (highlightRule featureId)) ∧
    (featureId ≠ "css-grid" → featureId ≠ "flexbox" → featureId ≠ "css-transforms" →
       (highlightFeatureUsage featureId d).els = clearHighlights d.els ∧
       ∀ e ∈ (highlightFeatureUsage featureId d).els, e.highlighted = false) ∧
    (highlightFeatureUsage featureId d).styleInjected = true := by
  refine ⟨?_, ?_, rfl⟩
  · rintro (rfl | rfl | rfl) i
    · show ((highlightSpecificFeature "css-grid" (clearHighlights d.els))[i]?).map HElem.highlighted =
        (d.els[i]?).map (highlightRule "css-grid")
      rw [highlightSpecificFeature, if_pos rfl, clearHighlights, List.map_map,
        List.getElem?_map]
      cases d.els[i]? with
      | none => rfl
      | some e =>
        show some ((applyGridHighlight (clearOne e)).highlighted) = some (highlightRule "css-grid" e)
        rw [highlightRule, if_pos rfl, clearOne, applyGridHighlight]
        by_cases hh : e.highlighted <;>
          by_cases hd : (e.display == "grid" || e.display == "inline-grid") = true <;>
          simp [hh, hd]
    · show ((highlightSpecificFeature "flexbox" (clearHighlights d.els))[i]?).map HElem.highlighted =
        (d.els[i]?).map (highlightRule "flexbox")
      rw [highlightSpecificFeature, if_neg (by decide), if_pos rfl, clearHighlights,
        List.map_map, List.getElem?_map]
      cases d.els[i]? with
      | none => rfl
      | some e =>
        show some ((applyFlexHighlight (clearOne e)).highlighted) = some (highlightRule "flexbox" e)
        rw [highlightRule, if_neg (by decide), if_pos rfl, clearOne, applyFlexHighlight]
        by_cases hh : e.highlighted <;>
          by_cases hd : (e.display == "flex" || e.display == "inline-flex") = true <;>
          simp [hh, hd]
    · show ((highlightSpecificFeature "css-transforms" (clearHighlights d.els))[i]?).map HElem.highlighted =
        (d.els[i]?).map (highlightRule "css-transforms")
      rw [highlightSpecificFeature, if_neg (by decide), if_neg (by decide), if_pos rfl,
        clearHighlights, List.map_map, List.getElem?_map]
      cases d.els[i]? with
      | none => rfl
      | some e =>
        show some ((applyTransformHighlight (clearOne e)).highlighted) =
          some (highlightRule "css-transforms" e)
        rw [highlightRule, if_neg (by decide), if_neg (by decide), if_pos rfl, clearOne,
          applyTransformHighlight]
        by_cases hh : e.highlighted <;>
          by_cases hd : (!(e.transform == "") && !(e.transform == "none")) = true <;>
          simp [hh, hd]
  · intro h1 h2 h3
    have hels : (highlightFeatureUsage featureId d).els = clearHighlights d.els := by
      show highlightSpecificFeature featureId (clearHighlights d.els) = clearHighlights d.els
      rw [highlightSpecificFeature, if_neg h1, if_neg h2, if_neg h3]
    refine ⟨hels, ?_⟩
    intro e he
    rw [hels] at he
    rcases List.mem_map.mp he with ⟨x, _, rfl⟩
    rw [clearOne]
    by_cases hx : x.highlighted <;> simp [hx]

/-- Witness for C4 (amended) on a concrete page: a `css-grid` request marks
the grid element and unmarks the previously marked non-grid element. -/
theorem highlightFeatureUsage_clears_then_applies_witness :
    (((highlightFeatureUsage "css-grid" gridDoc).els[0]?).map HElem.highlighted =
       (gridDoc.els[0]?).map (highlightRule "css-grid")) ∧
    (((highlightFeatureUsage "css-grid" gridDoc).els[1]?).map HElem.highlighted =
       (gridDoc.els[1]?).map (highlightRule "css-grid")) ∧
    ((gridDoc.els[1]?).map (highlightRule "css-grid") = some false) :=
  ⟨(highlightFeatureUsage_clears_then_applies "css-grid" gridDoc).1 (Or.inl rfl) 0,
   (highlightFeatureUsage_clears_then_applies "css-grid" gridDoc).1 (Or.inl rfl) 1,
   by decide⟩

/-- The empty string trims to itself. -/
theorem jsTrim_empty : jsTrim "" = "" := rfl

/-- C6 counterexample: an empty-string pending value is present in storage
(the Coordinator stores `selectionText.trim()`, which can be empty), yet the
panel neither populates the field, nor searches, nor removes the value — it is
not consumed. -/
theorem pendingSearch_empty_not_consumed :
    (checkPendingSearch { pendingSearch := some "" }).1 = [] ∧
    (checkPendingSearch { pendingSearch := some "" }).2.pendingSearch = some "" :=
  ⟨rfl, rfl⟩

/-- C6 (amended): if a pending search value `v` with nonempty trimmed content
is present in storage when the panel opens, the panel populates the search
field with `v`, issues the catalog search built from the trimmed `v`, and
removes the value; running the check again on the resulting storage does
nothing — the value is consumed exactly once. -/
theorem checkPendingSearch_consumes_once (st : SessionStore) (v : String)
    (hv : st.pendingSearch = some v) (hnb : jsTrim v ≠ "") :
    (checkPendingSearch st).1 =
      [PopupEvent.fieldSet v,
       PopupEvent.searchIssued ("name:" ++ jsTrim v ++ " OR id:" ++ jsTrim v) true,
       PopupEvent.storageRemove "pendingSearch"] ∧
    (checkPendingSearch st).2.pendingSearch = none ∧
    checkPendingSearch (checkPendingSearch st).2 = ([], (checkPendingSearch st).2) := by
  have hv' : v ≠ "" := by
    intro h
    subst h
    exact hnb jsTrim_empty
  have hevs : handleSearchEvents v =
      [PopupEvent.searchIssued ("name:" ++ jsTrim v ++ " OR id:" ++ jsTrim v) true] := by
    rw [handleSearchEvents, handleSearchQuery]
    simp [hnb]
  have h2 : (checkPendingSearch st).2.pendingSearch = none := by
    rw [checkPendingSearch, hv]
    simp [hv']
  have hnone : ∀ s2 : SessionStore, s2.pendingSearch = none → checkPendingSearch s2 = ([], s2) := by
    intro s2 hs
    rw [checkPendingSearch, hs]
  refine ⟨?_, h2, hnone _ h2⟩
  rw [checkPendingSearch, hv]
  simp [hv', hevs]

/-- Witness for C6 (amended) with the pending value `"grid"`. -/
theorem checkPendingSearch_consumes_once_witness :
    (checkPendingSearch { pendingSearch := some "grid" }).1 =
      [PopupEvent.fieldSet "grid",
       PopupEvent.searchIssued ("name:" ++ jsTrim "grid" ++ " OR id:" ++ jsTrim "grid") true,
       PopupEvent.storageRemove "pendingSearch"] ∧
    (checkPendingSearch { pendingSearch := some "grid" }).2.pendingSearch = none ∧
    checkPendingSearch (checkPendingSearch { pendingSearch := some "grid" }).2 =
      ([], (checkPendingSearch { pendingSearch := some "grid" }).2) :=
  checkPendingSearch_consumes_once { pendingSearch := some "grid" } "grid" rfl (by decide)

/-- C5 counterexample: opening the panel with pending value `"grid"`, the
default `baseline_status:newly` search is issued at trace position 2 while the
pending-value search executes at position 4 — the pending search is *not*
executed before the default search is issued. -/
theorem initTrace_pending_after_default :
    findPos isDefaultSearchEvent (initTrace (some "grid")) = some 2 ∧
    findPos isUserSearchEvent (initTrace (some "grid")) = some 4 ∧
    ¬ (4 : Nat) < 2 := by
  refine ⟨by decide, by decide, by decide⟩

/-- C5 (amended): on every panel open, the pending-search *check* (its storage
read) is initiated before the default search is issued, and the default search
for `baseline_status:newly` is issued without the user-initiated mark; but the
search a pending value triggers always executes strictly after the default
search is issued (the storage read's continuation runs after `init`'s
synchronous body). -/
theorem initTrace_order (pending : Option String) :
    findPos isPendingReadEvent (initTrace pending) = some 0 ∧
    findPos isDefaultSearchEvent (initTrace pending) = some 2 ∧
    (∀ i, findPos isUserSearchEvent (initTrace pending) = some i → 2 < i) := by
  refine ⟨rfl, rfl, ?_⟩
  intro i hi
  rw [show initTrace pending =
        PopupEvent.storageGet "pendingSearch" :: PopupEvent.tabQuery ::
          PopupEvent.searchIssued "baseline_status:newly" false ::
          (checkPendingSearch { pendingSearch := pending }).1 from rfl] at hi
  rw [findPos, findPos, findPos] at hi
  simp only [isUserSearchEvent, Bool.false_eq_true, if_false, Option.map_map] at hi
  rcases Option.map_eq_some'.mp hi with ⟨j, _, hji⟩
  simp at hji
  omega

/-- Witness for C5 (amended) with pending value `"grid"`. -/
theorem initTrace_order_witness :
    findPos isDefaultSearchEvent (initTrace (some "grid")) = some 2 ∧ (2 : Nat) < 4 :=
  ⟨(initTrace_order (some "grid")).2.1,
   (initTrace_order (some "grid")).2.2 4 (by decide)⟩

/-! ### C1: deduplication of the detected-feature set -/

/-- `find?` over a singleton list. -/
theorem find?_single {p : DetectedFeature → Bool} {g : DetectedFeature} :
    List.find? p [g] = if p g then some g else none := by
  by_cases h : p g = true
  · simp [List.find?, h]
  · have h' : p g = false := by simpa using h
    simp only [List.find?, h', Bool.false_eq_true, if_false]

/-- Replacing the first matching record's evidence does not change the ids. -/
theorem updateEvidenceFirst_map_id (fs : List DetectedFeature) (cid ev : String) :
    (updateEvidenceFirst fs cid ev).map DetectedFeature.id = fs.map DetectedFeature.id := by
  induction fs with
  | nil => rfl
  | cons f fs ih =>
    rw [updateEvidenceFirst]
    by_cases h : f.id = cid
    · simp [h]
    · simp only [h, if_false, List.map_cons, ih]

/-- Searching for a different id is unaffected by an evidence update. -/
theorem find?_updateEvidenceFirst_ne (fs : List DetectedFeature) (cid ev qid : String)
    (h : qid ≠ cid) :
    (updateEvidenceFirst fs cid ev).find? (fun f => f.id == qid) =
      fs.find? (fun f => f.id == qid) := by
  induction fs with
  | nil => rfl
  | cons f fs ih =>
    rw [updateEvidenceFirst]
    by_cases hf : f.id = cid
    · rw [if_pos hf]
      have hpred : (f.id == qid) = false :=
        beq_eq_false_iff_ne.mpr (by rw [hf]; exact fun hh => h hh.symm)
      simp only [List.find?, hpred]
    · rw [if_neg hf]
      by_cases hq : (f.id == qid) = true
      · simp only [List.find?, hq]
      · have hq' : (f.id == qid) = false := by simpa using hq
        simp only [List.find?, hq', ih]

/-- Searching for the updated id finds the same record with its evidence
replaced. -/
theorem find?_updateEvidenceFirst_eq (fs : List DetectedFeature) (cid ev : String) :
    (updateEvidenceFirst fs cid ev).find? (fun f => f.id == cid) =
      (fs.find? (fun f => f.id == cid)).map (fun f => { f with evidence := ev }) := by
  induction fs with
  | nil => rfl
  | cons f fs ih =>
    rw [updateEvidenceFirst]
    by_cases hf : f.id = cid
    · rw [if_pos hf]
      have hpred : (f.id == cid) = true := by simp [hf]
      simp only [List.find?, hpred, Option.map_some']
    · rw [if_neg hf]
      have hpred : (f.id == cid) = false := beq_eq_false_iff_ne.mpr hf
      simp only [List.find?, hpred, ih]

/-- `runCalls` peels off the last call. -/
theorem runCalls_append_single (cs : List FeatureCall) (c : FeatureCall) :
    runCalls (cs ++ [c]) = callAdd (runCalls cs) c := by
  rw [runCalls, runCalls, List.foldl_append]
  rfl

/-- First-call search distributes over appending one call. -/
theorem firstCallWith_append (cs : List FeatureCall) (c : FeatureCall) (x : String) :
    firstCallWith (cs ++ [c]) x =
      (firstCallWith cs x).or (if c.id == x then some c else none) := by
  rw [firstCallWith, firstCallWith, List.find?_append]
  by_cases h : (c.id == x) = true
  · rw [if_pos h]
    have : List.find? (fun d => d.id == x) [c] = some c := by simp [List.find?, h]
    rw [this]
  · have h' : (c.id == x) = false := by simpa using h
    rw [if_neg (by simp [h'])]
    have : List.find? (fun d => d.id == x) [c] = none := by simp only [List.find?, h']
    rw [this]

/-- Last-call search after appending one call prefers the appended call. -/
theorem lastCallWith_append (cs : List FeatureCall) (c : FeatureCall) (x : String) :
    lastCallWith (cs ++ [c]) x = if c.id == x then some c else lastCallWith cs x := by
  rw [lastCallWith, lastCallWith, List.reverse_append]
  simp only [List.reverse_singleton, List.singleton_append]
  by_cases h : (c.id == x) = true
  · rw [if_pos h]
    simp [List.find?, h]
  · have h' : (c.id == x) = false := by simpa using h
    rw [if_neg (by simp [h'])]
    simp only [List.find?, h']

/-- A sequence holds a first call with an id iff it holds a last one. -/
theorem firstCallWith_eq_none_iff (cs : List FeatureCall) (x : String) :
    firstCallWith cs x = none ↔ lastCallWith cs x = none := by
  rw [firstCallWith, lastCallWith, List.find?_eq_none, List.find?_eq_none]
  constructor
  · intro h y hy
    exact h y (List.mem_reverse.mp hy)
  · intro h y hy
    exact h y (List.mem_reverse.mpr hy)

/-- `claimedEntry` is absent exactly when the id was never added. -/
theorem claimedEntry_eq_none_iff (cs : List FeatureCall) (x : String) :
    claimedEntry cs x = none ↔ firstCallWith cs x = none := by
  rw [claimedEntry]
  cases hf : firstCallWith cs x with
  | none => simp
  | some ff =>
    cases hl : lastCallWith cs x with
    | none => exact absurd hf (by simp [(firstCallWith_eq_none_iff cs x).mpr hl])
    | some fl => simp

/-- C1: replaying any sequence of `addFeature(id, name, type, evidence)` calls
on a fresh Scanner instance yields a detected set with (a) pairwise distinct
ids, and (b) for every id, an entry exactly when some call used that id, whose
name and type come from the *first* call with that id and whose evidence comes
from the *last* call with that id — a collision replaces only the evidence. -/
theorem addFeature_dedup_spec (cs : List FeatureCall) :
    ((runCalls cs).map DetectedFeature.id).Nodup ∧
    (∀ x : String, (runCalls cs).find? (fun f => f.id == x) = claimedEntry cs x) := by
  induction cs using List.reverseRecOn with
  | nil => exact ⟨List.nodup_nil, fun x => rfl⟩
  | append_singleton cs c ih =>
    obtain ⟨ihnd, ihfind⟩ := ih
    rw [runCalls_append_single]
    cases hex : (runCalls cs).find? (fun f => f.id == c.id) with
    | some f0 =>
      have hcall : callAdd (runCalls cs) c =
          updateEvidenceFirst (runCalls cs) c.id c.evidence := by
        rw [callAdd, addFeature, hex]
      rw [hcall]
      constructor
      · rw [updateEvidenceFirst_map_id]
        exact ihnd
      · intro x
        by_cases hid : x = c.id
        · rw [hid]
          have hce : claimedEntry cs c.id = some f0 := by
            rw [← ihfind c.id]
            exact hex
          cases hf : firstCallWith cs c.id with
          | none =>
            rw [claimedEntry, hf] at hce
            cases hce
          | some ff =>
            cases hl : lastCallWith cs c.id with
            | none =>
              exact absurd hf (by simp [(firstCallWith_eq_none_iff cs c.id).mpr hl])
            | some fl =>
              rw [find?_updateEvidenceFirst_eq, ihfind c.id, claimedEntry, hf, hl,
                claimedEntry, firstCallWith_append, lastCallWith_append, hf,
                if_pos (beq_self_eq_true c.id)]
              simp
        · rw [find?_updateEvidenceFirst_ne _ _ _ _ hid, ihfind x]
          have hne : (c.id == x) = false := beq_eq_false_iff_ne.mpr (fun hh => hid hh.symm)
          rw [claimedEntry, claimedEntry, firstCallWith_append, lastCallWith_append, hne]
          simp
    | none =>
      have hcall : callAdd (runCalls cs) c = runCalls cs ++
          [{ id := c.id, name := c.name, type := c.type, evidence := c.evidence }] := by
        rw [callAdd, addFeature, hex]
      rw [hcall]
      have hnotin : c.id ∉ (runCalls cs).map DetectedFeature.id := by
        intro hmem
        rcases List.mem_map.mp hmem with ⟨f, hf, hfid⟩
        have := List.find?_eq_none.mp hex f hf
        simp [hfid] at this
      constructor
      · rw [List.map_append, List.nodup_append]
        refine ⟨ihnd, List.nodup_singleton _, ?_⟩
        intro y hy hy1
        rcases List.mem_singleton.mp hy1 with rfl
        exact hnotin hy
      · intro x
        rw [List.find?_append, ihfind x, find?_single]
        by_cases hid : x = c.id
        · rw [hid]
          have hcen : claimedEntry cs c.id = none := by
            rw [← ihfind c.id]
            exact hex
          have hfn : firstCallWith cs c.id = none := (claimedEntry_eq_none_iff cs c.id).mp hcen
          rw [hcen, Option.none_or, claimedEntry, firstCallWith_append,
            lastCallWith_append, hfn, Option.none_or]
          simp
        · have hne : (c.id == x) = false := beq_eq_false_iff_ne.mpr (fun hh => hid hh.symm)
          have hne2 : (({ id := c.id, name := c.name, type := c.type, evidence := c.evidence } :
              DetectedFeature).id == x) = false := hne
          rw [hne2, claimedEntry, claimedEntry, firstCallWith_append,
            lastCallWith_append, hne]
          simp

/-- Corollary of C1 on a concrete call sequence: two calls with the same id
collapse to one entry keeping the first name/type and the last evidence. -/
theorem addFeature_dedup_spec_example :
    runCalls [⟨"css-grid", "CSS Grid Layout", "css", "Found in stylesheets"⟩,
              ⟨"flexbox", "CSS Flexible Box Layout", "css", "Found in stylesheets"⟩,
              ⟨"css-grid", "CSS Grid Layout", "css", "Active on div"⟩] =
      [⟨"css-grid", "CSS Grid Layout", "css", "Active on div"⟩,
       ⟨"flexbox", "CSS Flexible Box Layout", "css", "Found in stylesheets"⟩] := by
  decide


/-! ### C3: detection runs and the random sampling pass -/

/-- A guarded call produces only its own id. -/
theorem checkCall_mem {b : Bool} {i n t e : String} {c : FeatureCall}
    (h : c ∈ checkCall b i n t e) : c.id = i := by
  rw [checkCall] at h
  split at h
  · rcases List.mem_singleton.mp h with rfl
    rfl
  · cases h

/-- The four per-element computed-style checks only produce sampled ids. -/
theorem computedStyleCalls_id_mem {el : PageElement} {c : FeatureCall}
    (h : c ∈ computedStyleCalls el) : c.id ∈ sampledIds := by
  rw [computedStyleCalls] at h
  rcases List.mem_append.mp h with h | h
  · rcases List.mem_append.mp h with h | h
    · rcases List.mem_append.mp h with h | h
      · rw [checkCall_mem h]
        decide
      · rw [checkCall_mem h]
        decide
    · rw [checkCall_mem h]
      decide
  · rw [checkCall_mem h]
    decide

/-- Every call the sampling pass makes carries one of the four sampled ids. -/
theorem analyzeComputedStylesCalls_id_mem (els : List PageElement) (s : Nat → Nat)
    {c : FeatureCall} (hc : c ∈ analyzeComputedStylesCalls els s) : c.id ∈ sampledIds := by
  rw [analyzeComputedStylesCalls] at hc
  rcases List.mem_flatMap.mp hc with ⟨i, _, hci⟩
  revert hci
  cases els.get? (s i % els.length) with
  | none => intro hci; cases hci
  | some el => exact fun hci => computedStyleCalls_id_mem hci

/-- The id set of a replayed call sequence, relative to a starting set. -/
theorem mem_ids_foldl (cs : List FeatureCall) (acc : List DetectedFeature) (x : String) :
    x ∈ (cs.foldl callAdd acc).map DetectedFeature.id ↔
      x ∈ acc.map DetectedFeature.id ∨ x ∈ cs.map FeatureCall.id := by
  induction cs generalizing acc with
  | nil => simp
  | cons c cs ih =>
    rw [List.foldl_cons, ih]
    have hstep : x ∈ (callAdd acc c).map DetectedFeature.id ↔
        x ∈ acc.map DetectedFeature.id ∨ x = c.id := by
      rw [callAdd, addFeature]
      cases hex : acc.find? (fun f => f.id == c.id) with
      | some f0 =>
        have hmem := List.mem_of_find?_eq_some hex
        have hfeq : f0.id = c.id := by simpa using List.find?_some hex
        have hcid : c.id ∈ acc.map DetectedFeature.id :=
          hfeq ▸ List.mem_map_of_mem DetectedFeature.id hmem
        rw [updateEvidenceFirst_map_id]
        constructor
        · exact Or.inl
        · rintro (h | rfl)
          · exact h
          · exact hcid
      | none => simp
    rw [hstep]
    simp only [List.map_cons, List.mem_cons]
    tauto

/-- The ids present after replaying a call sequence from scratch are exactly
the ids of the calls. -/
theorem mem_ids_runCalls (cs : List FeatureCall) (x : String) :
    x ∈ (runCalls cs).map DetectedFeature.id ↔ x ∈ cs.map FeatureCall.id := by
  rw [runCalls, mem_ids_foldl]
  simp

/-- C3 counterexample: on `filterDoc` (unchanged between runs), a run whose
random draws hit the filtered element detects `css-filters`, while a run whose
draws miss it does not — the two id sets differ, so the full detection pass is
not idempotent by id set. -/
theorem analyzeDocument_not_idempotent :
    "css-filters" ∈ (analyzeDocument filterDoc drawFirst).map DetectedFeature.id ∧
    "css-filters" ∉ (analyzeDocument filterDoc drawSecond).map DetectedFeature.id := by
  decide

/-- C3 (amended): two full detection passes over an unchanged document agree
on every feature id except possibly the four ids the pseudo-random
computed-style sampling pass can contribute (`css-grid`, `flexbox`,
`css-transforms`, `css-filters`); outside those, the id sets of any two runs
are equal. -/
theorem analyzeDocument_ids_stable (d : Doc) (s1 s2 : Nat → Nat) (x : String)
    (hx : x ∉ sampledIds) :
    (x ∈ (analyzeDocument d s1).map DetectedFeature.id ↔
      x ∈ (analyzeDocument d s2).map DetectedFeature.id) := by
  rw [analyzeDocument, analyzeDocument, mem_ids_runCalls, mem_ids_runCalls]
  have hmid : ∀ s : Nat → Nat, x ∉ (analyzeComputedStylesCalls d.elements s).map FeatureCall.id := by
    intro s hmem
    rcases List.mem_map.mp hmem with ⟨c, hc, rfl⟩
    exact hx (analyzeComputedStylesCalls_id_mem d.elements s hc)
  rw [detectionCalls, detectionCalls]
  simp only [List.map_append, List.mem_append, hmid s1, hmid s2, or_false, false_or]

/-- Witness for C3 (amended): `es-modules` is not a sampled id, and its
membership agrees between the two differently-sampled runs on `filterDoc`. -/
theorem analyzeDocument_ids_stable_witness :
    ("es-modules" ∉ sampledIds) ∧
    ("es-modules" ∈ (analyzeDocument filterDoc drawFirst).map DetectedFeature.id ↔
      "es-modules" ∈ (analyzeDocument filterDoc drawSecond).map DetectedFeature.id) :=
  ⟨by decide, analyzeDocument_ids_stable filterDoc drawFirst drawSecond "es-modules" (by decide)⟩

end BaselineChecker
